import Mathlib

set_option maxRecDepth 100000

/-!
Verification development for the expert-summary application (`app.py`).
The Python source is shallowly embedded: pandas cell values become `PyVal`,
the Streamlit/Bedrock side effects become an explicit event trace, Python
exceptions become `Except` values, and the row-processing loop becomes a
structurally recursive function over the list of rows.
-/

namespace ExpertDP

/-- A pandas cell value as seen by `remove_tags_from_str`: a string, the
float NaN (which is not equal to itself), or some other non-string,
non-NaN value (e.g. an int), on which `re.sub` raises `TypeError`. -/
inductive PyVal where
  | str (s : String)
  | nan
  | other
deriving DecidableEq, Repr

/-- The message of the `TypeError` that the Python regex engine raises on
a non-string, non-NaN argument. -/
def typeErrorMsg : String := "expected string or bytes-like object"

/-- One pass of the Python regex substitution that deletes every
non-greedy `<.*?>` match from the character list.  The second argument is `none` when scanning outside a candidate tag
and `some buf` when inside one, `buf` holding the consumed characters in
reverse (starting with the opening `<`).  A candidate tag is abandoned at a
newline (`.` does not match `\n`) or at end of input, in which case the
buffered characters are emitted unchanged; no `<` inside the buffer can
start a match either, because the buffer contains no `>` and the same
newline/end blocks it. -/
def rtAux : List Char → Option (List Char) → List Char
  | [], none => []
  | [], some buf => buf.reverse
  | c :: cs, none =>
      if c = '<' then rtAux cs (some [c]) else c :: rtAux cs none
  | c :: cs, some buf =>
      if c = '>' then rtAux cs none
      else if c = '\n' then buf.reverse ++ (c :: rtAux cs none)
      else rtAux cs (some (c :: buf))

/-- Removal of every non-greedy `<.*?>` match from a string. -/
def removeTags (s : String) : String := String.mk (rtAux s.data none)

/-- Embedding of `remove_tags_from_str` (app.py lines 79-85): the `text == text` test is
false exactly for NaN, which yields `""`; strings are cleaned with the
non-greedy tag regex; any other value passes the self-equality test and
then makes `re.sub` raise `TypeError`, modelled as `Except.error`. -/
def remove_tags_from_str : PyVal → Except String String
  | .nan => .ok ""
  | .str s => .ok (removeTags s)
  | .other => .error typeErrorMsg

/-- One input row of the record table.  The four named text columns are the
ones `todo_row` reads; `otherCols` stands for all further columns returned
by the `SELECT *` query; `Response` is the summary column (meaningful only
when the `hasResponseCol` flag of the table is set). -/
structure Row where
  PITCH : PyVal
  PROPOSAL_ANSWERS_TEXT : PyVal
  PROPOSAL : PyVal
  CONTRACT_INFO_TEXT : PyVal
  otherCols : List PyVal
  Response : String
deriving DecidableEq, Repr

/-- The record table: the data frame rows plus whether the `Response`
column is present. -/
structure Table where
  rows : List Row
  hasResponseCol : Bool
deriving DecidableEq, Repr

/-- Text of `PROMPT1` before the `PITCH` placeholder (app.py lines 32-41). -/
def PROMPT1_a : String := "\nWe have a freelancing application offering few Accounting, Bookkeeping and Tax related Services services.\n\nIn our application, clients will register and provide an overview of their work/project. Our Subject Matter Experts (SMEs) will discuss the client\x27s use case and prepare a proposal to map the requirements to a suitable freelancer. Once our SMEs identify potential freelancers, they will express their interest by pitching based on the client\x27s input. Alternatively, SMEs may select freelancers for interviews, recording questions and answers as `PROPOSAL_ANSWERS_TEXT`. Upon selecting a freelancer, a contract will be established, detailing the project\x27s information, certificates, and experience.\n\nAs an SME, your task is to:\n\nUsing the information from the following text fields, consolidate all detailed summaries of the expert/freelancer to provide a clear understanding of their capabilities, qualifications, and suitability for the role. This summary should be comprehensive enough to aid in rating or hiring decisions. Avoid including task-related dates, but include relevant dates related to the expert/freelancer\x27s qualifications, such as degree completion or certification years.\n\n- `PITCH_TEXT`: "

/-- Template text between the `PITCH` and `PROPOSAL_ANSWERS_TEXT`
placeholders (app.py line 42). -/
def PROMPT1_b : String := "\n- `PROPOSAL_ANSWERS_TEXT`: "

/-- Template text between the `PROPOSAL_ANSWERS_TEXT` and `PROPOSAL_TEXT`
placeholders (app.py line 43). -/
def PROMPT1_c : String := "\n- `PROPOSAL_TEXT`: "

/-- Template text between the `PROPOSAL_TEXT` and `CONTRACT_INFO_TEXT`
placeholders (app.py line 44). -/
def PROMPT1_d : String := "\n- `CONTRACT_INFO_TEXT`: "

/-- Template text after the `CONTRACT_INFO_TEXT` placeholder (app.py
lines 45-53). -/
def PROMPT1_e : String := "\n\n**Note:**\n1. Either `PROPOSAL_ANSWERS_TEXT` or `PITCH_TEXT` will be present.\n2. Create only a SINGLE consolidated Summary by using above information and do not add any additional subheadings.\n3. Do not include introductory phrases such as \x27Based on the provided information.\n4. The provided `CONTRACT_INFO_TEXT` contains the freelancer\x27s previous project contract info.\n5. Do not include any previous Task related dates\n6. Create only A SINGLE CONSOLIDATED SUMMARY in 10 LINES\n"

/-- The substituted template: `PROMPT1.format` with the four named
placeholders replaced by the given values. -/
def PROMPT1 (PITCH PROPOSAL_ANSWERS_TEXT PROPOSAL_TEXT CONTRACT_INFO_TEXT : String) : String :=
  PROMPT1_a ++ PITCH ++ PROMPT1_b ++ PROPOSAL_ANSWERS_TEXT ++ PROMPT1_c ++ PROPOSAL_TEXT
    ++ PROMPT1_d ++ CONTRACT_INFO_TEXT ++ PROMPT1_e

/-- The LLM collaborator (Bedrock `invoke_model` plus response parsing):
given the number of invocations made so far and the prompt, it either
returns the generated text or raises. -/
structure Llm where
  behave : Nat → String → Except String String

/-- One observable side effect of the app: an LLM invocation (with its
prompt), a progress notification `Completed done out of total`, a
`st.error` message, or a `st.success` message. -/
inductive Evt where
  | call (prompt : String)
  | progress (done total : Nat)
  | errMsg (msg : String)
  | info (msg : String)
deriving DecidableEq, Repr

/-- The prompts of the LLM invocations recorded in a trace, in order. -/
def callsOf (tr : List Evt) : List String :=
  tr.filterMap fun e => match e with | .call p => some p | _ => none

/-- The progress notifications recorded in a trace, in order. -/
def progressOf (tr : List Evt) : List (Nat × Nat) :=
  tr.filterMap fun e => match e with | .progress d t => some (d, t) | _ => none

/-- The `st.error` messages recorded in a trace, in order. -/
def errorsOf (tr : List Evt) : List String :=
  tr.filterMap fun e => match e with | .errMsg m => some m | _ => none

/-- Embedding of `generate_response` (app.py lines 88-110): invokes the LLM with the
prompt; on any exception from the invocation or response parsing, shows
`st.error` and returns the sentinel `"NA"`.  The invocation is recorded in
the trace either way. -/
def generate_response (llm : Llm) (tr : List Evt) (prompt : String) : List Evt × String :=
  let tr1 := tr ++ [Evt.call prompt]
  match llm.behave (callsOf tr).length prompt with
  | .ok text => (tr1, text)
  | .error e =>
      (tr1 ++ [Evt.errMsg ("An error occurred while generating response: " ++ e)], "NA")

/-- The prompt-construction part of `todo_row` (app.py lines 114-118): the
four text fields are sanitized, in source order, and substituted into
`PROMPT1`; a sanitizer exception propagates. -/
def buildPrompt (row : Row) : Except String String := do
  let Pitch ← remove_tags_from_str row.PITCH
  let Proposal_Answers ← remove_tags_from_str row.PROPOSAL_ANSWERS_TEXT
  let Contract_info ← remove_tags_from_str row.CONTRACT_INFO_TEXT
  let proposal ← remove_tags_from_str row.PROPOSAL
  return PROMPT1 Pitch Proposal_Answers proposal Contract_info

/-- Embedding of `todo_row` (app.py lines 113-120): builds the prompt from the row and
passes it to `generate_response`. -/
def todo_row (llm : Llm) (tr : List Evt) (row : Row) : Except String (List Evt × String) :=
  (buildPrompt row).map fun prompt => generate_response llm tr prompt

/-- The body of one loop iteration before the UI updates (app.py lines
137-138): a row with empty `Response` is processed by `todo_row` and the
result stored; any other row is left untouched with no LLM invocation. -/
def stepRow (llm : Llm) (row : Row) (tr : List Evt) : Except String (List Evt × Row) :=
  if row.Response = "" then
    match todo_row llm tr row with
    | .error e => .error e
    | .ok (tr1, text) => .ok (tr1, { row with Response := text })
  else
    .ok (tr, row)

/-- The `for index, row in df.iterrows()` loop (app.py lines 136-144),
inside the surrounding `try`: `i` is the current index, and after each
step of a row the progress notification `(i+1, total)` is emitted.  An
exception from `stepRow` stops the loop at once: the remaining rows (the
failing one included) are returned unchanged and the exception is handed
to the caller as `some e`. -/
def runRowsAux (llm : Llm) (total : Nat) : Nat → List Row → List Evt →
    List Row × List Evt × Option String
  | _, [], tr => ([], tr, none)
  | i, row :: rest, tr =>
    match stepRow llm row tr with
    | .error e => (row :: rest, tr, some e)
    | .ok (tr1, row') =>
      let res := runRowsAux llm total (i + 1) rest (tr1 ++ [Evt.progress (i + 1) total])
      (row' :: res.1, res.2.1, res.2.2)

/-- The column guard (app.py lines 126-127): when the `Response` column is
absent it is created with the `Response` of every row set to the empty
string; otherwise the table is unchanged. -/
def ensureResponseCol (t : Table) : Table :=
  if t.hasResponseCol then t
  else { rows := t.rows.map fun r => { r with Response := "" }, hasResponseCol := true }

/-- Embedding of `get_the_response` (app.py lines 123-147): ensures the `Response`
column, runs the row loop, and catches any exception escaping the loop
body, turning it into a `st.error` message; the function itself always
returns.  Mutations made before an exception persist, as they do on the
shared data frame in the source. -/
def get_the_response (llm : Llm) (t : Table) (tr : List Evt) : Table × List Evt :=
  let t1 := ensureResponseCol t
  let res := runRowsAux llm t1.rows.length 0 t1.rows tr
  match res.2.2 with
  | none => ({ t1 with rows := res.1 }, res.2.1)
  | some e => ({ t1 with rows := res.1 }, res.2.1 ++ [Evt.errMsg ("An error occurred: " ++ e)])

/-- The Streamlit session state used by the top-level script: the phase
marker `step` (1 = awaiting data, 2 = processing) and the loaded data
frame, when any. -/
structure SessionSt where
  step : Nat
  df : Option Table
deriving DecidableEq, Repr

/-- Session-state initialization (app.py lines 153-154): `step` starts at
1 and no data frame is loaded. -/
def initSession : SessionSt := { step := 1, df := none }

/-- The `step = 1` part of the top-level script body (app.py lines
157-166).  `connectOutcome` is the warehouse connection attempt
(`connect_to_snowflake`, which catches its own exception and shows
`st.error`), `queryOutcome` the query execution (`run_query`, likewise).
When `step = 1` and both succeed, the data frame is stored, `step` becomes
2 and `st.success` is shown; on either failure the state is unchanged. -/
def loadStep (connectOutcome : Except String Unit) (queryOutcome : Except String Table)
    (s : SessionSt) (tr : List Evt) : SessionSt × List Evt :=
  if s.step = 1 then
    match connectOutcome with
    | .error e => (s, tr ++ [Evt.errMsg ("Failed to connect to Snowflake: " ++ e)])
    | .ok _ =>
      match queryOutcome with
      | .error e => (s, tr ++ [Evt.errMsg ("Failed to execute query: " ++ e)])
      | .ok df =>
          ({ step := 2, df := some df },
           tr ++ [Evt.info "Query executed and data loaded successfully!"])
  else (s, tr)

/-- One execution of the whole top-level script body (app.py lines
157-170): `loadStep` followed, in the same pass, by the `step = 2` branch
(the two `if`s are not exclusive in the source, so a successful load falls
through into `get_the_response` immediately).  When the `step = 2` branch
reads `st.session_state.df` with no frame loaded, the `AttributeError` is
caught by the handler inside `get_the_response` and shown as an error. -/
def scriptStep (connectOutcome : Except String Unit) (queryOutcome : Except String Table)
    (llm : Llm) (s : SessionSt) (tr : List Evt) : SessionSt × List Evt :=
  let s1 := (loadStep connectOutcome queryOutcome s tr).1
  let tr1 := (loadStep connectOutcome queryOutcome s tr).2
  if s1.step = 2 then
    match s1.df with
    | some df =>
        let res := get_the_response llm df tr1
        ({ s1 with df := some res.1 }, res.2)
    | none =>
        (s1, tr1 ++ [Evt.errMsg "An error occurred: st.session_state has no attribute df"])
  else (s1, tr1)

/-- The prompt `buildPrompt` yields for a row on which it succeeds
(arbitrary on rows where it raises). -/
def promptOf (row : Row) : String :=
  match buildPrompt row with
  | .ok p => p
  | .error _ => ""

/-- The string `generate_response` returns for the `k`-th LLM invocation
on `prompt`: the generated text on success, the sentinel `"NA"` on
failure. -/
def respOf (llm : Llm) (k : Nat) (prompt : String) : String :=
  match llm.behave k prompt with
  | .ok s => s
  | .error _ => "NA"

/-- The rows a full run produces from rows that all start with empty
`Response` and all build their prompt successfully: the `j`-th row gets
the outcome of the `(k+j)`-th LLM invocation on its prompt. -/
def expectedRows (llm : Llm) : Nat → List Row → List Row
  | _, [] => []
  | k, r :: rs => { r with Response := respOf llm k (promptOf r) } :: expectedRows llm (k + 1) rs

/-- Everything of a row except its `Response` value. -/
def frameOf (r : Row) : PyVal × PyVal × PyVal × PyVal × List PyVal :=
  (r.PITCH, r.PROPOSAL_ANSWERS_TEXT, r.PROPOSAL, r.CONTRACT_INFO_TEXT, r.otherCols)

/-- A run over these rows invokes the LLM zero times: scanning in order,
every row with a non-empty `Response` is skipped, and the first row with
an empty `Response` (if any) fails prompt construction, aborting the loop
before any invocation. -/
def secondRunQuiet : List Row → Prop
  | [] => True
  | r :: rs =>
      if r.Response = "" then ∃ e, buildPrompt r = Except.error e else secondRunQuiet rs

/-- The events one loop iteration appends for a row, given the invocation
count `k` and row index `i`: the progress notification alone for a skipped
row, preceded by the LLM invocation (and, on LLM failure, the error
message) for a processed row.  Empty when prompt construction raises. -/
def rowTrace (llm : Llm) (total k i : Nat) (row : Row) : List Evt :=
  if row.Response = "" then
    match buildPrompt row with
    | .error _ => []
    | .ok p =>
      match llm.behave k p with
      | .ok _ => [Evt.call p, Evt.progress (i + 1) total]
      | .error e =>
          [Evt.call p, Evt.errMsg ("An error occurred while generating response: " ++ e),
           Evt.progress (i + 1) total]
  else [Evt.progress (i + 1) total]

/-- The events the whole loop appends, obtained by concatenating the
per-row traces in table order while threading the invocation count. -/
def emittedTrace (llm : Llm) (total : Nat) : Nat → Nat → List Row → List Evt
  | _, _, [] => []
  | k, i, row :: rest =>
    if row.Response = "" then
      match buildPrompt row with
      | .error _ => []
      | .ok _ => rowTrace llm total k i row ++ emittedTrace llm total (k + 1) (i + 1) rest
    else rowTrace llm total k i row ++ emittedTrace llm total k (i + 1) rest

/-- Whether `needle` is an initial segment of `hay`. -/
def startsWithL (needle hay : List Char) : Bool :=
  match needle, hay with
  | [], _ => true
  | _ :: _, [] => false
  | a :: as, b :: bs => a = b && startsWithL as bs

/-- Whether `needle` occurs contiguously somewhere in `hay`. -/
def occursIn (needle : List Char) : List Char → Bool
  | [] => startsWithL needle []
  | c :: cs => startsWithL needle (c :: cs) || occursIn needle cs

/-- Whether `needle` occurs as a substring of `hay`. -/
def strOccurs (needle hay : String) : Bool := occursIn needle.data hay.data

/-! ### Concrete rows, tables and LLM stubs used in concrete runs -/

/-- A well-formed input row with an empty `Response`. -/
def benignEmptyRow : Row :=
  { PITCH := .str "<b>pitch value</b>", PROPOSAL_ANSWERS_TEXT := .str "answers value",
    PROPOSAL := .str "proposal value", CONTRACT_INFO_TEXT := .str "contract value",
    otherCols := [.str "extra"], Response := "" }

/-- A row whose `PITCH` cell is a non-string, non-NaN value, so that its
sanitization raises `TypeError`. -/
def badRow : Row := { benignEmptyRow with PITCH := .other }

/-- A row already carrying the sentinel `"NA"` as its `Response`. -/
def naRow : Row := { benignEmptyRow with Response := "NA" }

/-- Row 1 of the three-row end-to-end scenario (empty `Response`). -/
def scenRow1 : Row := { benignEmptyRow with PITCH := .str "pitch one" }

/-- Row 2 of the three-row scenario (`Response` already `"existing"`). -/
def scenRow2 : Row := { benignEmptyRow with PITCH := .str "pitch two", Response := "existing" }

/-- Row 3 of the three-row scenario (empty `Response`). -/
def scenRow3 : Row := { benignEmptyRow with PITCH := .str "pitch three" }

/-- The three-row scenario table. -/
def scenTable : Table := { rows := [scenRow1, scenRow2, scenRow3], hasResponseCol := true }

/-- A one-row table with an empty `Response`. -/
def oneRowTable : Table := { rows := [benignEmptyRow], hasResponseCol := true }

/-- A two-row table whose first row fails sanitization. -/
def badFirstTable : Table := { rows := [badRow, benignEmptyRow], hasResponseCol := true }

/-- A two-row all-empty table with distinct prompts. -/
def twoRowTable : Table :=
  { rows := [benignEmptyRow, { benignEmptyRow with PITCH := .str "second pitch" }],
    hasResponseCol := true }

/-- An LLM stub that always succeeds with `"S"`. -/
def llmConstS : Llm := { behave := fun _ _ => .ok "S" }

/-- An LLM stub that always succeeds with the empty string. -/
def llmEmptyStub : Llm := { behave := fun _ _ => .ok "" }

/-- An LLM stub that always succeeds with `"OK"`. -/
def llmOkStub : Llm := { behave := fun _ _ => .ok "OK" }

/-- An LLM stub that always raises. -/
def llmFailStub : Llm := { behave := fun _ _ => .error "boom" }

/-- An LLM stub that raises on its first invocation and then succeeds. -/
def llmFirstFails : Llm :=
  { behave := fun k _ => if k = 0 then .error "boom" else .ok "OK" }

/-- An LLM stub that returns `"S1"` on its first invocation and `"S3"`
afterwards. -/
def llmS1S3 : Llm := { behave := fun k _ => if k = 0 then .ok "S1" else .ok "S3" }

/-- The events `generate_response` appends for the `k`-th invocation on
`prompt`: the invocation itself, followed on failure by the error
message. -/
def rowTraceCalls (llm : Llm) (k : Nat) (prompt : String) : List Evt :=
  match llm.behave k prompt with
  | .ok _ => [Evt.call prompt]
  | .error e =>
      [Evt.call prompt, Evt.errMsg ("An error occurred while generating response: " ++ e)]

/-! ### Basic trace lemmas -/

theorem callsOf_append (a b : List Evt) : callsOf (a ++ b) = callsOf a ++ callsOf b :=
  List.filterMap_append a b _

theorem progressOf_append (a b : List Evt) :
    progressOf (a ++ b) = progressOf a ++ progressOf b :=
  List.filterMap_append a b _

theorem errorsOf_append (a b : List Evt) : errorsOf (a ++ b) = errorsOf a ++ errorsOf b :=
  List.filterMap_append a b _

@[simp] theorem callsOf_nil : callsOf [] = [] := rfl

@[simp] theorem callsOf_cons_call (p : String) (tr : List Evt) :
    callsOf (Evt.call p :: tr) = p :: callsOf tr := rfl

@[simp] theorem callsOf_cons_progress (d t : Nat) (tr : List Evt) :
    callsOf (Evt.progress d t :: tr) = callsOf tr := rfl

@[simp] theorem callsOf_cons_errMsg (m : String) (tr : List Evt) :
    callsOf (Evt.errMsg m :: tr) = callsOf tr := rfl

@[simp] theorem callsOf_cons_info (m : String) (tr : List Evt) :
    callsOf (Evt.info m :: tr) = callsOf tr := rfl

@[simp] theorem progressOf_nil : progressOf [] = [] := rfl

@[simp] theorem progressOf_cons_call (p : String) (tr : List Evt) :
    progressOf (Evt.call p :: tr) = progressOf tr := rfl

@[simp] theorem progressOf_cons_progress (d t : Nat) (tr : List Evt) :
    progressOf (Evt.progress d t :: tr) = (d, t) :: progressOf tr := rfl

@[simp] theorem progressOf_cons_errMsg (m : String) (tr : List Evt) :
    progressOf (Evt.errMsg m :: tr) = progressOf tr := rfl

@[simp] theorem progressOf_cons_info (m : String) (tr : List Evt) :
    progressOf (Evt.info m :: tr) = progressOf tr := rfl

/-! ### `generate_response` and `stepRow` characterizations -/

theorem generate_response_ok {llm : Llm} {tr : List Evt} {p s : String}
    (h : llm.behave (callsOf tr).length p = .ok s) :
    generate_response llm tr p = (tr ++ [Evt.call p], s) := by
  simp [generate_response, h]

theorem generate_response_err {llm : Llm} {tr : List Evt} {p e : String}
    (h : llm.behave (callsOf tr).length p = .error e) :
    generate_response llm tr p =
      (tr ++ [Evt.call p, Evt.errMsg ("An error occurred while generating response: " ++ e)],
       "NA") := by
  simp [generate_response, h]

theorem generate_response_resp (llm : Llm) (tr : List Evt) (p : String) :
    (generate_response llm tr p).2 = respOf llm (callsOf tr).length p := by
  unfold generate_response respOf
  cases llm.behave (callsOf tr).length p <;> simp

theorem generate_response_trace (llm : Llm) (tr : List Evt) (p : String) :
    (generate_response llm tr p).1 = tr ++ rowTraceCalls llm (callsOf tr).length p := by
  unfold generate_response rowTraceCalls
  cases llm.behave (callsOf tr).length p <;> simp

theorem stepRow_skip {row : Row} (llm : Llm) (tr : List Evt) (h : row.Response ≠ "") :
    stepRow llm row tr = .ok (tr, row) := by
  simp [stepRow, h]

theorem stepRow_raise {row : Row} {e : String} (llm : Llm) (tr : List Evt)
    (h : row.Response = "") (hb : buildPrompt row = .error e) :
    stepRow llm row tr = .error e := by
  simp [stepRow, h, todo_row, hb, Except.map]

theorem stepRow_proc {row : Row} {p : String} (llm : Llm) (tr : List Evt)
    (h : row.Response = "") (hb : buildPrompt row = .ok p) :
    stepRow llm row tr =
      .ok ((generate_response llm tr p).1,
           { row with Response := (generate_response llm tr p).2 }) := by
  simp [stepRow, h, todo_row, hb, Except.map]

theorem callsOf_rowTraceCalls (llm : Llm) (k : Nat) (p : String) :
    callsOf (rowTraceCalls llm k p) = [p] := by
  unfold rowTraceCalls
  cases llm.behave k p <;> simp

theorem progressOf_rowTraceCalls (llm : Llm) (k : Nat) (p : String) :
    progressOf (rowTraceCalls llm k p) = [] := by
  unfold rowTraceCalls
  cases llm.behave k p <;> simp

theorem stepRow_frame {llm : Llm} {row : Row} {tr tr1 : List Evt} {row' : Row}
    (h : stepRow llm row tr = .ok (tr1, row')) : frameOf row' = frameOf row := by
  unfold stepRow at h
  split at h
  · cases htd : todo_row llm tr row with
    | error e => rw [htd] at h; cases h
    | ok v =>
      rw [htd] at h
      obtain ⟨h1, h2⟩ := Prod.mk.injEq .. ▸ (Except.ok.injEq .. ▸ h)
      subst h2; rfl
  · obtain ⟨h1, h2⟩ := Prod.mk.injEq .. ▸ (Except.ok.injEq .. ▸ h)
    subst h2; rfl

theorem stepRow_trace {llm : Llm} {row : Row} {tr tr1 : List Evt} {row' : Row}
    (h : stepRow llm row tr = .ok (tr1, row')) :
    ∃ d, tr1 = tr ++ d ∧ progressOf d = [] := by
  by_cases hr : row.Response = ""
  · cases hb : buildPrompt row with
    | error e => rw [stepRow_raise llm tr hr hb] at h; cases h
    | ok p =>
      rw [stepRow_proc llm tr hr hb] at h
      obtain ⟨h1, _⟩ := Prod.mk.injEq .. ▸ (Except.ok.injEq .. ▸ h)
      refine ⟨rowTraceCalls llm (callsOf tr).length p, ?_, progressOf_rowTraceCalls ..⟩
      rw [← h1, generate_response_trace]
  · rw [stepRow_skip llm tr hr] at h
    obtain ⟨h1, _⟩ := Prod.mk.injEq .. ▸ (Except.ok.injEq .. ▸ h)
    exact ⟨[], by rw [← h1, List.append_nil], rfl⟩

/-! ### Loop-level lemmas -/

theorem expectedRows_cons (llm : Llm) (k : Nat) (r : Row) (rs : List Row) :
    expectedRows llm k (r :: rs) =
      { r with Response := respOf llm k (promptOf r) } :: expectedRows llm (k + 1) rs := rfl

theorem runRowsAux_frame (llm : Llm) (total : Nat) :
    ∀ (rows : List Row) (i : Nat) (tr : List Evt),
      ((runRowsAux llm total i rows tr).1).map frameOf = rows.map frameOf := by
  intro rows
  induction rows with
  | nil => intro i tr; rfl
  | cons row rest ih =>
    intro i tr
    unfold runRowsAux
    cases hs : stepRow llm row tr with
    | error e => simp
    | ok v =>
      obtain ⟨tr1, row'⟩ := v
      simp only [List.map_cons]
      rw [stepRow_frame hs, ih]

theorem runRowsAux_all_ok (llm : Llm) (total : Nat) :
    ∀ (rows : List Row) (i : Nat) (tr : List Evt),
      (∀ r ∈ rows, r.Response = "") →
      (∀ r ∈ rows, ∃ p, buildPrompt r = Except.ok p) →
      (runRowsAux llm total i rows tr).1 = expectedRows llm (callsOf tr).length rows ∧
      callsOf (runRowsAux llm total i rows tr).2.1 = callsOf tr ++ rows.map promptOf ∧
      (runRowsAux llm total i rows tr).2.2 = none := by
  intro rows
  induction rows with
  | nil =>
    intro i tr _ _
    exact ⟨rfl, by simp [runRowsAux], rfl⟩
  | cons row rest ih =>
    intro i tr hempty hbp
    have hr : row.Response = "" := hempty row (List.mem_cons_self ..)
    obtain ⟨p, hp⟩ := hbp row (List.mem_cons_self ..)
    have hpo : promptOf row = p := by unfold promptOf; rw [hp]
    unfold runRowsAux
    rw [stepRow_proc llm tr hr hp]
    simp only
    have htr1 : (generate_response llm tr p).1 = tr ++ rowTraceCalls llm (callsOf tr).length p :=
      generate_response_trace ..
    have hc2 : callsOf ((generate_response llm tr p).1 ++ [Evt.progress (i + 1) total]) =
        callsOf tr ++ [p] := by
      rw [htr1, callsOf_append, callsOf_append, callsOf_rowTraceCalls]
      simp [callsOf]
    have hlen : (callsOf ((generate_response llm tr p).1 ++ [Evt.progress (i + 1) total])).length
        = (callsOf tr).length + 1 := by rw [hc2]; simp
    obtain ⟨ih1, ih2, ih3⟩ := ih (i + 1) ((generate_response llm tr p).1 ++
        [Evt.progress (i + 1) total])
      (fun r hrm => hempty r (List.mem_cons_of_mem _ hrm))
      (fun r hrm => hbp r (List.mem_cons_of_mem _ hrm))
    refine ⟨?_, ?_, ih3⟩
    · rw [ih1, hlen, expectedRows_cons, hpo, generate_response_resp]
    · rw [ih2, hc2, List.map_cons, hpo, List.append_assoc]
      rfl

theorem runRowsAux_quiet_post (llm : Llm) (total : Nat)
    (hne : ∀ k p s, llm.behave k p = .ok s → s ≠ "") :
    ∀ (rows : List Row) (i : Nat) (tr : List Evt),
      secondRunQuiet (runRowsAux llm total i rows tr).1 := by
  intro rows
  induction rows with
  | nil => intro i tr; trivial
  | cons row rest ih =>
    intro i tr
    unfold runRowsAux
    by_cases hr : row.Response = ""
    · cases hb : buildPrompt row with
      | error e =>
        rw [stepRow_raise llm tr hr hb]
        simp only [secondRunQuiet, hr, if_pos]
        exact ⟨e, hb⟩
      | ok p =>
        rw [stepRow_proc llm tr hr hb]
        simp only [secondRunQuiet]
        have hne2 : (generate_response llm tr p).2 ≠ "" := by
          rw [generate_response_resp]
          unfold respOf
          cases hbe : llm.behave (callsOf tr).length p with
          | ok s => exact hne _ _ _ hbe
          | error e => simp
        rw [if_neg hne2]
        exact ih ..
    · rw [stepRow_skip llm tr hr]
      simp only [secondRunQuiet]
      rw [if_neg hr]
      exact ih ..

theorem runRowsAux_quiet_run (llm : Llm) (total : Nat) :
    ∀ (rows : List Row) (i : Nat) (tr : List Evt), secondRunQuiet rows →
      (runRowsAux llm total i rows tr).1 = rows ∧
      callsOf (runRowsAux llm total i rows tr).2.1 = callsOf tr := by
  intro rows
  induction rows with
  | nil => intro i tr _; exact ⟨rfl, rfl⟩
  | cons row rest ih =>
    intro i tr hq
    unfold runRowsAux
    by_cases hr : row.Response = ""
    · simp only [secondRunQuiet, if_pos hr] at hq
      obtain ⟨e, hb⟩ := hq
      rw [stepRow_raise llm tr hr hb]
      exact ⟨rfl, rfl⟩
    · simp only [secondRunQuiet, if_neg hr] at hq
      rw [stepRow_skip llm tr hr]
      simp only
      obtain ⟨ih1, ih2⟩ := ih (i + 1) (tr ++ [Evt.progress (i + 1) total]) hq
      refine ⟨by rw [ih1], ?_⟩
      rw [ih2, callsOf_append]
      simp [callsOf]

theorem rowTrace_skip {row : Row} (llm : Llm) (total k i : Nat) (h : row.Response ≠ "") :
    rowTrace llm total k i row = [Evt.progress (i + 1) total] := by
  simp [rowTrace, h]

theorem rowTrace_proc {row : Row} {p : String} (llm : Llm) (total k i : Nat)
    (h : row.Response = "") (hb : buildPrompt row = .ok p) :
    rowTrace llm total k i row = rowTraceCalls llm k p ++ [Evt.progress (i + 1) total] := by
  unfold rowTrace rowTraceCalls
  rw [if_pos h, hb]
  cases hbe : llm.behave k p <;> simp [hbe]

theorem emittedTrace_cons_skip {row : Row} (llm : Llm) (total k i : Nat) (rest : List Row)
    (h : row.Response ≠ "") :
    emittedTrace llm total k i (row :: rest) =
      Evt.progress (i + 1) total :: emittedTrace llm total k (i + 1) rest := by
  simp only [emittedTrace]
  rw [if_neg h, rowTrace_skip llm total k i h]
  rfl

theorem emittedTrace_cons_proc {row : Row} {p : String} (llm : Llm) (total k i : Nat)
    (rest : List Row) (h : row.Response = "") (hb : buildPrompt row = .ok p) :
    emittedTrace llm total k i (row :: rest) =
      (rowTraceCalls llm k p ++ [Evt.progress (i + 1) total]) ++
        emittedTrace llm total (k + 1) (i + 1) rest := by
  simp only [emittedTrace]
  rw [if_pos h, hb, rowTrace_proc llm total k i h hb]

theorem range_shift_pair (n i total : Nat) :
    (List.range (n + 1)).map (fun j => (i + 1 + j, total)) =
      (i + 1, total) :: (List.range n).map (fun j => (i + 1 + 1 + j, total)) := by
  rw [List.range_succ_eq_map, List.map_cons, List.map_map]
  congr 1
  apply List.map_congr_left
  intro a _
  show (i + 1 + (a + 1), total) = (i + 1 + 1 + a, total)
  have h2 : i + 1 + (a + 1) = i + 1 + 1 + a := by omega
  rw [h2]

theorem runRowsAux_progress (llm : Llm) (total : Nat) :
    ∀ (rows : List Row) (i : Nat) (tr : List Evt),
      (runRowsAux llm total i rows tr).2.2 = none →
      progressOf (runRowsAux llm total i rows tr).2.1 =
        progressOf tr ++ (List.range rows.length).map (fun j => (i + 1 + j, total)) := by
  intro rows
  induction rows with
  | nil => intro i tr _; simp [runRowsAux]
  | cons row rest ih =>
    intro i tr hnone
    unfold runRowsAux at hnone ⊢
    cases hs : stepRow llm row tr with
    | error e => rw [hs] at hnone; cases hnone
    | ok v =>
      obtain ⟨tr1, row'⟩ := v
      rw [hs] at hnone
      simp only at hnone ⊢
      obtain ⟨d, hd, hpd⟩ := stepRow_trace hs
      rw [ih (i + 1) (tr1 ++ [Evt.progress (i + 1) total]) hnone, hd]
      rw [progressOf_append, progressOf_append, hpd]
      simp only [List.append_nil, List.length_cons]
      rw [range_shift_pair]
      simp [List.append_assoc]

theorem runRowsAux_trace (llm : Llm) (total : Nat) :
    ∀ (rows : List Row) (i : Nat) (tr : List Evt),
      (runRowsAux llm total i rows tr).2.2 = none →
      (runRowsAux llm total i rows tr).2.1 =
        tr ++ emittedTrace llm total (callsOf tr).length i rows := by
  intro rows
  induction rows with
  | nil => intro i tr _; simp [runRowsAux, emittedTrace]
  | cons row rest ih =>
    intro i tr hnone
    unfold runRowsAux at hnone ⊢
    by_cases hr : row.Response = ""
    · cases hb : buildPrompt row with
      | error e => rw [stepRow_raise llm tr hr hb] at hnone; cases hnone
      | ok p =>
        rw [stepRow_proc llm tr hr hb] at hnone ⊢
        simp only at hnone ⊢
        have htr1 : (generate_response llm tr p).1 =
            tr ++ rowTraceCalls llm (callsOf tr).length p := generate_response_trace ..
        have hc2 : callsOf ((generate_response llm tr p).1 ++ [Evt.progress (i + 1) total]) =
            callsOf tr ++ [p] := by
          rw [htr1, callsOf_append, callsOf_append, callsOf_rowTraceCalls]
          simp [callsOf]
        have hlen :
            (callsOf ((generate_response llm tr p).1 ++ [Evt.progress (i + 1) total])).length =
            (callsOf tr).length + 1 := by rw [hc2]; simp
        rw [ih (i + 1) ((generate_response llm tr p).1 ++ [Evt.progress (i + 1) total]) hnone,
          hlen, htr1, emittedTrace_cons_proc llm total (callsOf tr).length i rest hr hb]
        simp [List.append_assoc]
    · rw [stepRow_skip llm tr hr] at hnone ⊢
      simp only at hnone ⊢
      rw [ih (i + 1) (tr ++ [Evt.progress (i + 1) total]) hnone,
        emittedTrace_cons_skip llm total (callsOf tr).length i rest hr]
      have : callsOf (tr ++ [Evt.progress (i + 1) total]) = callsOf tr := by
        rw [callsOf_append]; simp [callsOf]
      rw [this]
      simp [List.append_assoc]

/-! ### `get_the_response`-level lemmas -/

theorem ensureResponseCol_hasCol (t : Table) : (ensureResponseCol t).hasResponseCol = true := by
  unfold ensureResponseCol
  split
  · assumption
  · rfl

theorem ensureResponseCol_of_hasCol {t : Table} (h : t.hasResponseCol = true) :
    ensureResponseCol t = t := by
  unfold ensureResponseCol
  rw [if_pos h]

theorem get_the_response_rows (llm : Llm) (t : Table) (tr : List Evt) :
    ((get_the_response llm t tr).1).rows =
      (runRowsAux llm (ensureResponseCol t).rows.length 0 (ensureResponseCol t).rows tr).1 := by
  unfold get_the_response
  simp only
  cases h : (runRowsAux llm (ensureResponseCol t).rows.length 0
      (ensureResponseCol t).rows tr).2.2 <;> simp [h]

theorem get_the_response_hasCol (llm : Llm) (t : Table) (tr : List Evt) :
    ((get_the_response llm t tr).1).hasResponseCol = true := by
  unfold get_the_response
  simp only
  cases h : (runRowsAux llm (ensureResponseCol t).rows.length 0
      (ensureResponseCol t).rows tr).2.2 <;> simp [h, ensureResponseCol_hasCol]

theorem get_the_response_calls (llm : Llm) (t : Table) (tr : List Evt) :
    callsOf (get_the_response llm t tr).2 =
      callsOf (runRowsAux llm (ensureResponseCol t).rows.length 0
        (ensureResponseCol t).rows tr).2.1 := by
  unfold get_the_response
  simp only
  cases h : (runRowsAux llm (ensureResponseCol t).rows.length 0
      (ensureResponseCol t).rows tr).2.2 <;> simp [h, callsOf_append, callsOf]

theorem get_the_response_trace_none {llm : Llm} {t : Table} {tr : List Evt}
    (h : (runRowsAux llm (ensureResponseCol t).rows.length 0
      (ensureResponseCol t).rows tr).2.2 = none) :
    (get_the_response llm t tr).2 =
      (runRowsAux llm (ensureResponseCol t).rows.length 0 (ensureResponseCol t).rows tr).2.1 := by
  unfold get_the_response
  simp only
  rw [h]

theorem ensureResponseCol_frame (t : Table) :
    (ensureResponseCol t).rows.map frameOf = t.rows.map frameOf := by
  unfold ensureResponseCol
  split
  · rfl
  · simp only [List.map_map]
    apply List.map_congr_left
    intro r _
    rfl

theorem expectedRows_getElem (llm : Llm) :
    ∀ (rows : List Row) (k j : Nat),
      (expectedRows llm k rows)[j]? =
        (rows[j]?).map fun r => { r with Response := respOf llm (k + j) (promptOf r) } := by
  intro rows
  induction rows with
  | nil => intro k j; rfl
  | cons r rs ih =>
    intro k j
    cases j with
    | zero => simp [expectedRows_cons]
    | succ j =>
      rw [expectedRows_cons]
      simp only [List.getElem?_cons_succ]
      rw [ih (k + 1) j]
      have : k + (j + 1) = k + 1 + j := by omega
      rw [this]

theorem zero_shift_map (N total : Nat) :
    (List.range N).map (fun j => (0 + 1 + j, total)) =
      (List.range N).map (fun j => (j + 1, total)) := by
  apply List.map_congr_left
  intro a _
  show (0 + 1 + a, total) = (a + 1, total)
  rw [Nat.zero_add, Nat.add_comm 1 a]

/-! ### Claim theorems -/

/-- Claim C4: `remove_tags_from_str` maps a null/missing (NaN) input to
the empty string; on every string input it returns the string with every
non-greedy `<.*?>` match removed; in particular the four reference
examples hold; and on this domain (NaN and strings) it always returns a
string and never fails. -/
theorem C4_sanitizer_spec :
    remove_tags_from_str PyVal.nan = Except.ok "" ∧
    remove_tags_from_str (PyVal.str "<b>hi</b> there") = Except.ok "hi there" ∧
    remove_tags_from_str (PyVal.str "plain") = Except.ok "plain" ∧
    remove_tags_from_str (PyVal.str "<p>a</p><p>b</p>") = Except.ok "ab" ∧
    (∀ s : String, remove_tags_from_str (PyVal.str s) = Except.ok (removeTags s)) :=
  ⟨rfl, congrArg Except.ok (by decide), congrArg Except.ok (by decide),
   congrArg Except.ok (by decide), fun _ => rfl⟩

/-- Claim C10: `get_the_response` modifies only the `Response` column:
after a run the table always has the `Response` column, and every other
column of every row (the four text fields and all additional columns) is
exactly as before the run. -/
theorem C10_frame_effect (llm : Llm) (t : Table) (tr : List Evt) :
    ((get_the_response llm t tr).1).rows.map frameOf = t.rows.map frameOf ∧
    ((get_the_response llm t tr).1).hasResponseCol = true :=
  ⟨by rw [get_the_response_rows, runRowsAux_frame, ensureResponseCol_frame],
   get_the_response_hasCol llm t tr⟩

/-- Claim C7: prompt construction is deterministic and pure: two rows
agreeing on the four text fields yield the same prompt (whatever their
`Response` or other columns hold); and in a concretely built prompt the
four template placeholders are substituted with the sanitized field values
rather than appearing literally (the sanitized values occur in the prompt,
the raw markup and the placeholder spellings do not). -/
theorem C7_prompt_deterministic :
    (∀ r1 r2 : Row, r1.PITCH = r2.PITCH →
      r1.PROPOSAL_ANSWERS_TEXT = r2.PROPOSAL_ANSWERS_TEXT →
      r1.PROPOSAL = r2.PROPOSAL → r1.CONTRACT_INFO_TEXT = r2.CONTRACT_INFO_TEXT →
      buildPrompt r1 = buildPrompt r2) ∧
    (strOccurs "\x7bPITCH\x7d" (promptOf benignEmptyRow) = false ∧
     strOccurs "\x7bPROPOSAL_ANSWERS_TEXT\x7d" (promptOf benignEmptyRow) = false ∧
     strOccurs "\x7bPROPOSAL_TEXT\x7d" (promptOf benignEmptyRow) = false ∧
     strOccurs "\x7bCONTRACT_INFO_TEXT\x7d" (promptOf benignEmptyRow) = false ∧
     strOccurs "<b>" (promptOf benignEmptyRow) = false ∧
     strOccurs "pitch value" (promptOf benignEmptyRow) = true ∧
     strOccurs "answers value" (promptOf benignEmptyRow) = true ∧
     strOccurs "proposal value" (promptOf benignEmptyRow) = true ∧
     strOccurs "contract value" (promptOf benignEmptyRow) = true) := by
  constructor
  · intro r1 r2 h1 h2 h3 h4
    unfold buildPrompt
    rw [h1, h2, h3, h4]
  · exact ⟨by decide, by decide, by decide, by decide, by decide,
      by decide, by decide, by decide, by decide⟩

/-- Witness for C7: the determinism part applied to two concrete rows that
agree on the four text fields but differ in `Response` and the other
columns. -/
theorem C7_witness :
    buildPrompt benignEmptyRow =
      buildPrompt { benignEmptyRow with Response := "zzz", otherCols := [.nan] } :=
  C7_prompt_deterministic.1 benignEmptyRow
    { benignEmptyRow with Response := "zzz", otherCols := [.nan] } rfl rfl rfl rfl

/-- Counterexample to claim C1 as stated: with an LLM collaborator that
successfully returns the empty string, the skip rule (`Response == ""`)
does not recognize the results of the first run as complete, so a second run
re-invokes the LLM: one row, one call on the first run, one more on the
second. -/
theorem C1_counterexample :
    ¬ ((callsOf (get_the_response llmEmptyStub
          (get_the_response llmEmptyStub oneRowTable []).1
          (get_the_response llmEmptyStub oneRowTable []).2).2).length =
        (callsOf (get_the_response llmEmptyStub oneRowTable []).2).length) := by
  decide

/-- Claim C1 (amended): provided the LLM collaborator never returns the
empty string as a successful response, running `get_the_response` once and
then again on the resulting table with the same collaborator performs zero
additional LLM invocations on the second run (the recorded invocation list
is unchanged). -/
theorem C1_second_run_no_calls (llm : Llm) (t : Table) (tr : List Evt)
    (hne : ∀ k p s, llm.behave k p = Except.ok s → s ≠ "") :
    callsOf (get_the_response llm (get_the_response llm t tr).1
        (get_the_response llm t tr).2).2
      = callsOf (get_the_response llm t tr).2 := by
  have hcol : ((get_the_response llm t tr).1).hasResponseCol = true :=
    get_the_response_hasCol llm t tr
  have hens : ensureResponseCol (get_the_response llm t tr).1 = (get_the_response llm t tr).1 :=
    ensureResponseCol_of_hasCol hcol
  have hq : secondRunQuiet ((get_the_response llm t tr).1).rows := by
    rw [get_the_response_rows]
    exact runRowsAux_quiet_post llm (ensureResponseCol t).rows.length hne
      (ensureResponseCol t).rows 0 tr
  rw [get_the_response_calls, hens]
  exact (runRowsAux_quiet_run llm ((get_the_response llm t tr).1).rows.length
    ((get_the_response llm t tr).1).rows 0 (get_the_response llm t tr).2 hq).2

/-- Witness for C1: a concrete one-row table and a stub that always
answers `"S"`; the second run is invocation-free. -/
theorem C1_witness :
    callsOf (get_the_response llmConstS (get_the_response llmConstS oneRowTable []).1
        (get_the_response llmConstS oneRowTable []).2).2
      = callsOf (get_the_response llmConstS oneRowTable []).2 :=
  C1_second_run_no_calls llmConstS oneRowTable []
    (fun k p s h => by
      simp only [llmConstS] at h
      injection h with h2
      rw [← h2]
      decide)

/-- Claim C3: a row whose `Response` is non-empty when the loop reaches it
(the sentinel `"NA"` included) is left unchanged, with no LLM invocation
and no exception; and the three-row end-to-end scenario: rows 1 and 3
empty, row 2 `"existing"`, stub answering `"S1"` then `"S3"`, yields
responses `["S1", "existing", "S3"]` with exactly two invocations, the
prompt of row 1 first and the prompt of row 3 second. -/
theorem C3_skip_nonempty :
    (∀ (llm : Llm) (tr : List Evt) (row : Row), row.Response ≠ "" →
      stepRow llm row tr = Except.ok (tr, row)) ∧
    ((get_the_response llmS1S3 scenTable []).1.rows.map Row.Response =
      ["S1", "existing", "S3"] ∧
     callsOf (get_the_response llmS1S3 scenTable []).2 =
      [promptOf scenRow1, promptOf scenRow3]) := by
  refine ⟨fun llm tr row h => stepRow_skip llm tr h, by decide, ?_⟩
  rfl

/-- Witness for C3: the skip rule applied to a concrete row whose
`Response` is the sentinel `"NA"`. -/
theorem C3_witness : stepRow llmS1S3 naRow [] = Except.ok ([], naRow) :=
  C3_skip_nonempty.1 llmS1S3 [] naRow (by decide)

/-- Counterexample to claim C2 as stated: in a two-row table whose first
row fails sanitization (a non-string, non-NaN `PITCH` cell) and with an
LLM that would succeed, the `Response` of the failing row stays `""` (not
`"NA"`), no LLM invocation at all is made, and the second row is never
processed: the failure is caught at the function level, not the row
boundary, and it aborts the loop. -/
theorem C2_counterexample :
    (get_the_response llmOkStub badFirstTable []).1.rows.map Row.Response = ["", ""] ∧
    callsOf (get_the_response llmOkStub badFirstTable []).2 = [] ∧
    errorsOf (get_the_response llmOkStub badFirstTable []).2 =
      ["An error occurred: " ++ typeErrorMsg] := by
  refine ⟨by decide, by decide, by decide⟩

/-- Claim C2 (amended): an LLM-call failure is caught at the row boundary:
the `Response` of the row is set to `"NA"`, an error is shown, and the loop
continues.  Any other exception while processing a row (such as a
sanitization `TypeError`) escapes the row: the loop stops at that row, the
failing row and all later rows are left unchanged, and the exception is
handed to the function-level handler. -/
theorem C2_row_failure_handling :
    (∀ (llm : Llm) (tr : List Evt) (row : Row) (p e : String),
      row.Response = "" → buildPrompt row = Except.ok p →
      llm.behave (callsOf tr).length p = Except.error e →
      stepRow llm row tr = Except.ok
        (tr ++ [Evt.call p,
            Evt.errMsg ("An error occurred while generating response: " ++ e)],
         { row with Response := "NA" })) ∧
    (∀ (llm : Llm) (total i : Nat) (tr : List Evt) (row : Row) (rest : List Row) (e : String),
      stepRow llm row tr = Except.error e →
      runRowsAux llm total i (row :: rest) tr = (row :: rest, tr, some e)) := by
  constructor
  · intro llm tr row p e hr hb hbe
    rw [stepRow_proc llm tr hr hb, generate_response_err hbe]
  · intro llm total i tr row rest e hs
    unfold runRowsAux
    rw [hs]

/-- Witness for C2 (amended): both parts at concrete inputs: an LLM
failure on a well-formed row yields `"NA"` plus an error message and an
`ok` step, while a sanitization failure aborts the loop with the rows
unchanged. -/
theorem C2_witness :
    stepRow llmFailStub benignEmptyRow [] = Except.ok
      ([Evt.call (promptOf benignEmptyRow),
        Evt.errMsg ("An error occurred while generating response: boom")],
       { benignEmptyRow with Response := "NA" }) ∧
    runRowsAux llmOkStub 2 0 [badRow, benignEmptyRow] [] =
      ([badRow, benignEmptyRow], [], some typeErrorMsg) :=
  ⟨C2_row_failure_handling.1 llmFailStub [] benignEmptyRow (promptOf benignEmptyRow) "boom"
      rfl rfl rfl,
   C2_row_failure_handling.2 llmOkStub 2 0 [] badRow [benignEmptyRow] typeErrorMsg rfl⟩

/-- Claim C5: if every row starts with an empty `Response` and builds its
prompt successfully, and the LLM fails exactly on invocation `i` while
succeeding with non-sentinel text on every other invocation, then after a
run from an empty trace the number of LLM invocations equals the table
size, the `Response` of row `i` is `"NA"`, and the `Response` of every
other row is not the sentinel. -/
theorem C5_single_failure (llm : Llm) (t : Table) (i : Nat)
    (hempty : ∀ r ∈ (ensureResponseCol t).rows, r.Response = "")
    (hbp : ∀ r ∈ (ensureResponseCol t).rows, ∃ p, buildPrompt r = Except.ok p)
    (hfail : ∀ p, ∃ e, llm.behave i p = Except.error e)
    (hok : ∀ k p, k ≠ i → ∃ s, llm.behave k p = Except.ok s ∧ s ≠ "NA") :
    (callsOf (get_the_response llm t []).2).length = (ensureResponseCol t).rows.length ∧
    (∀ r, ((get_the_response llm t []).1.rows)[i]? = some r → r.Response = "NA") ∧
    (∀ j r, j ≠ i → ((get_the_response llm t []).1.rows)[j]? = some r →
      r.Response ≠ "NA") := by
  obtain ⟨h1, h2, h3⟩ := runRowsAux_all_ok llm (ensureResponseCol t).rows.length
    (ensureResponseCol t).rows 0 [] hempty hbp
  have hrows : (get_the_response llm t []).1.rows =
      expectedRows llm 0 (ensureResponseCol t).rows := by
    rw [get_the_response_rows, h1]
    rfl
  refine ⟨?_, ?_, ?_⟩
  · rw [get_the_response_calls, h2]
    simp
  · intro r hr
    rw [hrows, expectedRows_getElem] at hr
    obtain ⟨r0, _, hmap⟩ := Option.map_eq_some'.mp hr
    obtain ⟨e, he⟩ := hfail (promptOf r0)
    rw [← hmap]
    simp only
    unfold respOf
    rw [Nat.zero_add, he]
  · intro j r hj hr
    rw [hrows, expectedRows_getElem] at hr
    obtain ⟨r0, _, hmap⟩ := Option.map_eq_some'.mp hr
    obtain ⟨s, hs, hsne⟩ := hok j (promptOf r0) (by omega)
    rw [← hmap]
    simp only
    unfold respOf
    rw [Nat.zero_add, hs]
    exact hsne

/-- Witness for C5: a two-row all-empty table and a stub failing only on
its first invocation. -/
theorem C5_witness :
    (callsOf (get_the_response llmFirstFails twoRowTable []).2).length =
      (ensureResponseCol twoRowTable).rows.length ∧
    (∀ r, ((get_the_response llmFirstFails twoRowTable []).1.rows)[0]? = some r →
      r.Response = "NA") ∧
    (∀ j r, j ≠ 0 → ((get_the_response llmFirstFails twoRowTable []).1.rows)[j]? = some r →
      r.Response ≠ "NA") :=
  C5_single_failure llmFirstFails twoRowTable 0
    (by decide)
    (by
      intro r hr
      have hr2 : r ∈ twoRowTable.rows := hr
      simp only [twoRowTable, List.mem_cons, List.not_mem_nil, or_false] at hr2
      rcases hr2 with h | h
      · exact ⟨promptOf benignEmptyRow, by rw [h]; rfl⟩
      · exact ⟨promptOf { benignEmptyRow with PITCH := .str "second pitch" },
          by rw [h]; rfl⟩)
    (fun p => ⟨"boom", rfl⟩)
    (fun k p hk => ⟨"OK", by simp [llmFirstFails, hk], by decide⟩)

/-- Claim C6: a full (exception-free) run over a table of size `N` emits
exactly `N` progress notifications, the `k`-th reporting `(k, N)` with `k`
strictly increasing; and the whole emitted trace is the in-order
concatenation of the per-row segments, the LLM invocation of a row (if
any) coming right before the progress notification of that row, which comes
before anything of the next row. -/
theorem C6_progress_in_order (llm : Llm) (t : Table) (tr : List Evt)
    (hcomplete : (runRowsAux llm (ensureResponseCol t).rows.length 0
      (ensureResponseCol t).rows tr).2.2 = none) :
    progressOf (get_the_response llm t tr).2 =
      progressOf tr ++ (List.range (ensureResponseCol t).rows.length).map
        (fun k => (k + 1, (ensureResponseCol t).rows.length)) ∧
    (get_the_response llm t tr).2 =
      tr ++ emittedTrace llm (ensureResponseCol t).rows.length (callsOf tr).length 0
        (ensureResponseCol t).rows := by
  rw [get_the_response_trace_none hcomplete]
  constructor
  · rw [runRowsAux_progress llm (ensureResponseCol t).rows.length (ensureResponseCol t).rows
      0 tr hcomplete, zero_shift_map]
  · exact runRowsAux_trace llm (ensureResponseCol t).rows.length (ensureResponseCol t).rows
      0 tr hcomplete

/-- Witness for C6: the three-row scenario table runs to completion and
satisfies the progress/trace characterization. -/
theorem C6_witness :
    progressOf (get_the_response llmS1S3 scenTable []).2 =
      progressOf [] ++ (List.range (ensureResponseCol scenTable).rows.length).map
        (fun k => (k + 1, (ensureResponseCol scenTable).rows.length)) ∧
    (get_the_response llmS1S3 scenTable []).2 =
      [] ++ emittedTrace llmS1S3 (ensureResponseCol scenTable).rows.length
        (callsOf ([] : List Evt)).length 0 (ensureResponseCol scenTable).rows :=
  C6_progress_in_order llmS1S3 scenTable [] (by decide)

/-- Claim C8: the session starts in phase 1 (awaiting data); from a fresh
session one script pass reaches phase 2 (processing) exactly when both the
connection and the query succeed; on a connection or query failure the
phase stays 1 and the pass emits just the failure message (no processing
events); once in phase 2 the phase stays 2; and from a fresh session no
phase other than 1 or 2 is reachable. -/
theorem C8_session_phase :
    initSession.step = 1 ∧
    (∀ (co : Except String Unit) (qo : Except String Table) (llm : Llm) (tr : List Evt),
      (scriptStep co qo llm initSession tr).1.step = 2 ↔
        co = Except.ok () ∧ ∃ df, qo = Except.ok df) ∧
    (∀ (qo : Except String Table) (llm : Llm) (tr : List Evt) (e : String),
      (scriptStep (Except.error e) qo llm initSession tr).1.step = 1 ∧
      (scriptStep (Except.error e) qo llm initSession tr).2 =
        tr ++ [Evt.errMsg ("Failed to connect to Snowflake: " ++ e)]) ∧
    (∀ (llm : Llm) (tr : List Evt) (e : String),
      (scriptStep (Except.ok ()) (Except.error e) llm initSession tr).1.step = 1 ∧
      (scriptStep (Except.ok ()) (Except.error e) llm initSession tr).2 =
        tr ++ [Evt.errMsg ("Failed to execute query: " ++ e)]) ∧
    (∀ (co : Except String Unit) (qo : Except String Table) (llm : Llm) (s : SessionSt)
      (tr : List Evt), s.step = 2 → (scriptStep co qo llm s tr).1.step = 2) ∧
    (∀ (co : Except String Unit) (qo : Except String Table) (llm : Llm) (tr : List Evt),
      (scriptStep co qo llm initSession tr).1.step = 1 ∨
      (scriptStep co qo llm initSession tr).1.step = 2) := by
  refine ⟨rfl, ?_, ?_, ?_, ?_, ?_⟩
  · intro co qo llm tr
    cases co with
    | error e => simp [scriptStep, loadStep, initSession]
    | ok u =>
      cases u
      cases qo with
      | error e => simp [scriptStep, loadStep, initSession]
      | ok df =>
        simp only [scriptStep, loadStep, initSession]
        norm_num
  · intro qo llm tr e
    constructor <;> simp [scriptStep, loadStep, initSession]
  · intro llm tr e
    constructor <;> simp [scriptStep, loadStep, initSession]
  · intro co qo llm s tr hs
    have hload : loadStep co qo s tr = (s, tr) := by
      unfold loadStep
      rw [if_neg (by omega : ¬ s.step = 1)]
    unfold scriptStep
    rw [hload]
    cases hdf : s.df <;> simp [hs, hdf]
  · intro co qo llm tr
    cases co with
    | error e => left; simp [scriptStep, loadStep, initSession]
    | ok u =>
      cases qo with
      | error e => left; simp [scriptStep, loadStep, initSession]
      | ok df =>
        right
        simp [scriptStep, loadStep, initSession]

/-- Witness for C8: concrete passes: a successful load reaches phase 2, a
failed connection stays in phase 1, and a pass from phase 2 stays in
phase 2. -/
theorem C8_witness :
    (scriptStep (Except.ok ()) (Except.ok scenTable) llmS1S3 initSession []).1.step = 2 ∧
    (scriptStep (Except.error "down") (Except.ok scenTable) llmS1S3 initSession []).1.step = 1 ∧
    (scriptStep (Except.ok ()) (Except.ok scenTable) llmS1S3
      { step := 2, df := some scenTable } []).1.step = 2 :=
  ⟨(C8_session_phase.2.1 (Except.ok ()) (Except.ok scenTable) llmS1S3 []).mpr
      ⟨rfl, scenTable, rfl⟩,
   (C8_session_phase.2.2.1 (Except.ok scenTable) llmS1S3 [] "down").1,
   C8_session_phase.2.2.2.2.1 (Except.ok ()) (Except.ok scenTable) llmS1S3
     { step := 2, df := some scenTable } [] rfl⟩

/-- Claim C9: `get_the_response` never lets an exception escape: for every
table and every LLM behavior it returns a normal pair, and any exception
the loop produced is converted into the function-level `st.error`
message present in the returned trace. -/
theorem C9_no_exception_escape (llm : Llm) (t : Table) (tr : List Evt) :
    ∃ t2 tr2, get_the_response llm t tr = (t2, tr2) ∧
      ∀ e, (runRowsAux llm (ensureResponseCol t).rows.length 0
          (ensureResponseCol t).rows tr).2.2 = some e →
        ("An error occurred: " ++ e) ∈ errorsOf tr2 := by
  refine ⟨(get_the_response llm t tr).1, (get_the_response llm t tr).2, rfl, ?_⟩
  intro e he
  unfold get_the_response
  simp only
  rw [he]
  simp only
  rw [errorsOf_append]
  simp [errorsOf]

/-- Witness for C9: the claim instantiated on a run that does hit the
function-level handler (first row fails sanitization). -/
theorem C9_witness :
    ∃ t2 tr2, get_the_response llmOkStub badFirstTable [] = (t2, tr2) ∧
      ∀ e, (runRowsAux llmOkStub (ensureResponseCol badFirstTable).rows.length 0
          (ensureResponseCol badFirstTable).rows []).2.2 = some e →
        ("An error occurred: " ++ e) ∈ errorsOf tr2 :=
  C9_no_exception_escape llmOkStub badFirstTable []

end ExpertDP
